import Mathlib

/-!
Verification development for the procurement-assistant core: a shallow
embedding of the query executor (src/database.py), the tool adapter and
conversation state (src/ai_agent.py), the quarter-derivation pipeline
expression (src/data_explorer.py), and the spec-described reasoning loop
and currency formatter, together with theorems settling the spec claims.
-/

/-- JSON-like values, the payload language of queries, pipeline stages and
tool results (Python dicts/lists/scalars as produced by json.loads). -/
inductive JValue where
  | null
  | bool (b : Bool)
  | num (n : Int)
  | str (s : String)
  | arr (elems : List JValue)
  | obj (fields : List (String × JValue))
  deriving Repr

mutual

/-- Structural equality on JSON values (Python == on parsed JSON). -/
def JValue.beq : JValue → JValue → Bool
  | .null, .null => true
  | .bool a, .bool b => a == b
  | .num a, .num b => a == b
  | .str a, .str b => a == b
  | .arr xs, .arr ys => beqJList xs ys
  | .obj fs, .obj gs => beqJFields fs gs
  | _, _ => false

def beqJList : List JValue → List JValue → Bool
  | [], [] => true
  | x :: xs, y :: ys => x.beq y && beqJList xs ys
  | _, _ => false

def beqJFields : List (String × JValue) → List (String × JValue) → Bool
  | [], [] => true
  | (k, v) :: fs, (l, w) :: gs => k == l && v.beq w && beqJFields fs gs
  | _, _ => false

end

instance : BEq JValue := ⟨JValue.beq⟩

/-- A stored record: a flat mapping of field names to scalar values
(spec section 3, "Record"). -/
abbrev Document := List (String × JValue)

/-- The collection contents, in store-native order. -/
abbrev Store := List Document

/-- Field access on a JSON object / document (first binding wins, as in a
Python dict converted to an association list). -/
def jsonGet (fields : Document) (key : String) : Option JValue :=
  (fields.find? (fun f => f.1 == key)).map (fun f => f.2)

/-- Modelled from the spec: the store connector's filter semantics
(section 3, a lookup is "a mapping of field to matcher applied as an
exact ... filter").  The connector itself (pymongo / MongoDB) is an
external collaborator (section 6); we model the exact-match case: a
document matches when every filter field is present with an equal value.
The empty filter matches every document. -/
def matchesFilter (conds : List (String × JValue)) (doc : Document) : Bool :=
  conds.all (fun c => (jsonGet doc c.1).any (fun v => v == c.2))

/-- Modelled from the spec: one aggregation stage of the external store
(section 3, a pipeline is "an ordered sequence of transformation stages:
filter, ..., limiting").  A filter stage keeps matching documents; a
size-limiting stage with a positive bound keeps the first n documents;
any other stage shape is rejected by the store with an error. -/
def applyStage (docs : Store) (stage : JValue) : Except String Store :=
  match stage with
  | JValue.obj [("$match", JValue.obj conds)] =>
      Except.ok (docs.filter (fun d => matchesFilter conds d))
  | JValue.obj [("$limit", JValue.num n)] =>
      if 1 ≤ n then Except.ok (docs.take n.toNat)
      else Except.error "the limit must be positive"
  | _ => Except.error "unrecognized pipeline stage"

/-- Modelled from the spec: the store connector's
`aggregate(stages) -> records` (section 6), folding the documents through
the stage sequence; a stage error is reported to the caller. -/
def aggregate (docs : Store) : List JValue → Except String Store
  | [] => Except.ok docs
  | stage :: rest =>
      match applyStage docs stage with
      | Except.ok docs2 => aggregate docs2 rest
      | Except.error e => Except.error e

/-- The stage appended by the executor: `{"$limit": limit}`
(src/database.py line 48). -/
def limitStage (n : Int) : JValue :=
  JValue.obj [("$limit", JValue.num n)]

/-- Python `'$limit' in stage` (src/database.py line 47): key membership
for a dict, element membership for a list, substring test for a string;
any other operand raises TypeError. -/
def pyContainsLimit (stage : JValue) : Except String Bool :=
  match stage with
  | JValue.obj fields => Except.ok (fields.any (fun f => f.1 == "$limit"))
  | JValue.arr elems => Except.ok (elems.any (fun e => e == JValue.str "$limit"))
  | JValue.str s => Except.ok (1 < (s.splitOn "$limit").length)
  | _ => Except.error "TypeError: argument of type is not iterable"

/-- Python `any('$limit' in stage for stage in pipeline)`
(src/database.py line 47): short-circuiting, propagating a raised
TypeError. -/
def anyHasLimit : List JValue → Except String Bool
  | [] => Except.ok false
  | stage :: rest =>
      match pyContainsLimit stage with
      | Except.error e => Except.error e
      | Except.ok true => Except.ok true
      | Except.ok false => anyHasLimit rest

/-- MongoDBManager.execute_query (src/database.py lines 36-43):
`list(self.collection.find(query).limit(limit))` — the matching documents
in store-native order, truncated to `limit`. -/
def execute_query (store : Store) (query : List (String × JValue))
    (limit : Int) : Store :=
  (store.filter (fun d => matchesFilter query d)).take limit.toNat

/-- MongoDBManager.execute_aggregation (src/database.py lines 45-54).
The first component is the state of the caller-supplied `pipeline` list
after the call (Python `pipeline.append` mutates it in place); the second
is the outcome: the aggregated documents, or the re-raised store error. -/
def execute_aggregation (store : Store) (pipeline : List JValue)
    (limit : Int) : List JValue × Except String Store :=
  match anyHasLimit pipeline with
  | Except.error e => (pipeline, Except.error e)
  | Except.ok true => (pipeline, aggregate store pipeline)
  | Except.ok false =>
      let pipeline2 := pipeline ++ [limitStage limit]
      (pipeline2, aggregate store pipeline2)

/-- One entry of ProcurementAssistant.conversation_history
(src/ai_agent.py lines 33, 378-385): {"role": ..., "content": ...}. -/
structure Message where
  role : String
  content : String
  deriving DecidableEq, Repr

/-- The mutable state of ProcurementAssistant that the claims concern:
its conversation history (src/ai_agent.py line 33). -/
structure AssistantState where
  conversation_history : List Message
  deriving DecidableEq, Repr

/-- A LangChain chat message as built by _format_chat_history
(HumanMessage or AIMessage). -/
inductive ChatMessage where
  | human (content : String)
  | ai (content : String)
  deriving DecidableEq, Repr

/-- The per-message conversion inside _format_chat_history
(src/ai_agent.py lines 404-407): role "user" becomes a HumanMessage,
anything else an AIMessage. -/
def toChatMessage (m : Message) : ChatMessage :=
  if m.role = "user" then ChatMessage.human m.content else ChatMessage.ai m.content

/-- ProcurementAssistant._format_chat_history (src/ai_agent.py lines
395-408): converts the last 10 history entries, in order
(`self.conversation_history[-10:]`). -/
def format_chat_history (hist : List Message) : List ChatMessage :=
  (hist.drop (hist.length - 10)).map toChatMessage

/-- ProcurementAssistant.reset_conversation (src/ai_agent.py lines
410-413): clears the history. -/
def reset_conversation (st : AssistantState) : AssistantState :=
  { conversation_history := [] }

/-- ProcurementAssistant.query (src/ai_agent.py lines 337-393).
`invokeResult` is the outcome of `agent_executor.invoke`
(external LangChain machinery): an exception, or a response whose
optional "output" field the code reads with a default.  On success the
question and answer are appended to the history; on an exception the
apology string is returned and the state is untouched. -/
def queryTurn (st : AssistantState) (user_question : String)
    (invokeResult : Except String (Option String)) : String × AssistantState :=
  match invokeResult with
  | Except.error e =>
      ("I encountered an error while processing your question: " ++ e, st)
  | Except.ok output =>
      let answer := output.getD "I apologize, but I couldn\x27t generate an answer."
      (answer,
       { conversation_history := st.conversation_history ++
           [Message.mk "user" user_question, Message.mk "assistant" answer] })

/-- The value a tool action hands back to the reasoning loop: a returned
JSON payload, or an exception escaping the tool boundary. -/
inductive ToolOutcome where
  | ret (j : JValue)
  | raised (msg : String)
  deriving Repr

/-- The routing step of _execute_mongodb_query (src/ai_agent.py lines
132-139): pick the executor from query_type.  A payload without the
expected "pipeline"/"query" field falls back to the empty pipeline /
empty filter (the dict.get defaults on lines 134 and 138); a payload
that is not a dict (and, for aggregate, not a list) raises
AttributeError at the .get call; a field of the wrong shape raises
inside the executor.  Either way the exception reaches the generic
handler of line 158. -/
def fetchResults (store : Store) (query_type : String)
    (query_dict : JValue) : Except String Store :=
  if query_type == "aggregate" then
    match query_dict with
    | JValue.arr stages => (execute_aggregation store stages 100).2
    | JValue.obj fields =>
        match jsonGet fields "pipeline" with
        | none => (execute_aggregation store [] 100).2
        | some (JValue.arr stages) => (execute_aggregation store stages 100).2
        | some _ => Except.error "TypeError: pipeline is not a stage list"
    | _ => Except.error "AttributeError: object has no attribute get"
  else
    match query_dict with
    | JValue.obj fields =>
        match jsonGet fields "query" with
        | none => Except.ok (execute_query store [] 100)
        | some (JValue.obj conds) => Except.ok (execute_query store conds 100)
        | some _ => Except.error "TypeError: filter is not a document"
    | _ => Except.error "AttributeError: object has no attribute get"

/-- The result-formatting step of _execute_mongodb_query
(src/ai_agent.py lines 141-152): the empty-result marker, or the bounded
summary {count, first-10 results, truncation note}. -/
def summarize (results : Store) : JValue :=
  if results.isEmpty then
    JValue.obj [("message", JValue.str "No results found"), ("count", JValue.num 0)]
  else
    JValue.obj
      [("count", JValue.num results.length),
       ("results", JValue.arr
         ((if 10 < results.length then results.take 10 else results).map JValue.obj)),
       ("note", JValue.str
         (if 10 < results.length then
            "Showing first 10 of " ++ toString results.length ++ " results"
          else ""))]

/-- ProcurementAssistant._execute_mongodb_query (src/ai_agent.py lines
111-161).  `parsed` is the outcome of `json.loads(query)`: a
JSONDecodeError or the parsed value.  Every failure is converted into a
returned error object; nothing is raised past the tool boundary. -/
def execute_mongodb_query (store : Store) (query_type : String)
    (parsed : Except String JValue) : ToolOutcome :=
  match parsed with
  | Except.error e =>
      ToolOutcome.ret (JValue.obj
        [("error", JValue.str ("Invalid JSON format: " ++ e))])
  | Except.ok query_dict =>
      match fetchResults store query_type query_dict with
      | Except.ok results => ToolOutcome.ret (summarize results)
      | Except.error e =>
          ToolOutcome.ret (JValue.obj
            [("error", JValue.str ("Error executing query: " ++ e))])

/-- The branch list of the quarter-derivation `$switch` expression in
DataExplorer.analyze_quarterly_spending (src/data_explorer.py lines
241-255); the identical expression appears in the aggregate tool
description (src/ai_agent.py lines 212-226). -/
def quarterBranches : List (List Int × String) :=
  [([7, 8, 9], "Q1"), ([10, 11, 12], "Q2"), ([1, 2, 3], "Q3"), ([4, 5, 6], "Q4")]

/-- The `default` arm of that `$switch` expression
(src/data_explorer.py line 251). -/
def quarterSwitchDefault : String := "Unknown"

/-- The quarter derived from a month number: MongoDB `$switch` takes the
first branch whose `$in` test succeeds, else the default
(src/data_explorer.py lines 243-253). -/
def quarterOf (month : Int) : String :=
  match quarterBranches.find? (fun br => br.1.contains month) with
  | some br => br.2
  | none => quarterSwitchDefault

/-- Config.MAX_ITERATIONS (src/config.py line 13). -/
def Config.MAX_ITERATIONS : Nat := 3

/-- One decision of the reasoning step: emit the final answer, or invoke
a tool action with a payload. -/
inductive AgentDecision where
  | finalAnswer (answer : String)
  | toolCall (action : String) (payload : String)

/-- Modelled from the spec: the fallback answer emitted when the
iteration budget is exhausted (section 4.4, "the loop must still emit a
best-effort answer rather than leaving the turn unanswered"); the loop
itself is LangChain AgentExecutor machinery, not part of src/. -/
def iterationLimitMessage : String :=
  "Agent stopped due to iteration limit or time limit."

/-- Modelled from the spec: the Reasoning Loop state machine of section
4.4 (the underlying AgentExecutor is an external collaborator, invoked
with max_iterations = Config.MAX_ITERATIONS at src/ai_agent.py lines
360-367).  `agentStep` is the pluggable decide step over the
observations so far; `tool` maps an invocation to its observed result;
the fuel is the remaining step budget.  Returns the answer and the
number of tool invocations executed. -/
def runReasoningLoop (tool : String → String → String)
    (agentStep : List String → AgentDecision) :
    Nat → List String → String × Nat
  | 0, _ => (iterationLimitMessage, 0)
  | Nat.succ fuel, obs =>
      match agentStep obs with
      | AgentDecision.finalAnswer ans => (ans, 0)
      | AgentDecision.toolCall action payload =>
          let r := runReasoningLoop tool agentStep fuel
            (obs ++ [tool action payload])
          (r.1, r.2 + 1)

/-- Round half up to the nearest integer (the spec's "rounded to 2
decimals" applied to 100·x). -/
def roundHalfUp (x : ℚ) : ℤ := Int.floor (x + 1 / 2)

/-- Two-digit rendering of a remainder in [0, 100). -/
def pad2 (r : ℤ) : String :=
  if r.toNat < 10 then "0" ++ toString r.toNat else toString r.toNat

/-- Hundredths rendered as a plain 2-decimal string: 8959 becomes
"89.59". -/
def decimal2 (hundredths : ℤ) : String :=
  toString (hundredths / 100) ++ "." ++ pad2 (hundredths % 100)

/-- Insert a thousands separator every three characters of a reversed
digit string. -/
def commaRev : List Char → List Char
  | a :: b :: c :: d :: rest => a :: b :: c :: ',' :: commaRev (d :: rest)
  | l => l

/-- A natural number with thousands separators: 5432 becomes "5,432". -/
def withCommas (n : Nat) : String :=
  String.mk (commaRev (toString n).data.reverse).reverse

/-- Modelled from the spec: the Result Formatter of section 4.6 (in the
source it exists only as prompt instructions consumed by the reasoning
step, src/ai_agent.py lines 315-323).  Deterministic scaling for a
currency magnitude v: at or above 1e9 divide by 1e9, round to 2 decimals
and suffix "B"; from 1e6 divide by 1e6 with "M"; from 1e4 divide by 1e3
with "K"; below 1e4 the full value with thousands separators and 2
decimals.  Every output is prefixed with the dollar sign. -/
def formatCurrency (v : ℚ) : String :=
  if 1000000000 ≤ v then
    "$" ++ (decimal2 (roundHalfUp (v / 1000000000 * 100)) ++ "B")
  else if 1000000 ≤ v then
    "$" ++ (decimal2 (roundHalfUp (v / 1000000 * 100)) ++ "M")
  else if 10000 ≤ v then
    "$" ++ (decimal2 (roundHalfUp (v / 1000 * 100)) ++ "K")
  else
    let cents := roundHalfUp (v * 100)
    "$" ++ (withCommas (cents / 100).toNat ++ "." ++ pad2 (cents % 100))

/-- Concrete 12-entry history used to witness the conversation-window
theorem. -/
def witnessHistory : List Message :=
  (List.range 12).map (fun i => Message.mk "user" (toString i))

/-- C4: for every integer month value m, the quarter-derivation mapping
yields "Q1" on {7,8,9}, "Q2" on {10,11,12}, "Q3" on {1,2,3}, "Q4" on
{4,5,6}, and "Unknown" on every other integer, without erroring on
out-of-range inputs (the mapping is a total function). -/
theorem quarterOf_piecewise (m : Int) :
    quarterOf m =
      (if m = 7 ∨ m = 8 ∨ m = 9 then "Q1"
       else if m = 10 ∨ m = 11 ∨ m = 12 then "Q2"
       else if m = 1 ∨ m = 2 ∨ m = 3 then "Q3"
       else if m = 4 ∨ m = 5 ∨ m = 6 then "Q4"
       else "Unknown") := by
  simp only [quarterOf, quarterBranches, quarterSwitchDefault, List.find?]
  split_ifs with h1 h2 h3 h4
  · rcases h1 with h | h | h <;> subst h <;> decide
  · rcases h2 with h | h | h <;> subst h <;> decide
  · rcases h3 with h | h | h <;> subst h <;> decide
  · rcases h4 with h | h | h <;> subst h <;> decide
  · push_neg at h1 h2 h3 h4
    obtain ⟨n7, n8, n9⟩ := h1
    obtain ⟨n10, n11, n12⟩ := h2
    obtain ⟨n1, n2, n3⟩ := h3
    obtain ⟨n4, n5, n6⟩ := h4
    rw [show ([7, 8, 9] : List Int).contains m = false by simp [n7, n8, n9],
      show ([10, 11, 12] : List Int).contains m = false by simp [n10, n11, n12],
      show ([1, 2, 3] : List Int).contains m = false by simp [n1, n2, n3],
      show ([4, 5, 6] : List Int).contains m = false by simp [n4, n5, n6]]

/-- C2 counterexample: starting from an empty history, a turn whose
reasoning step raises returns the apology string, but the question is
NOT appended to the conversation history (the history is still empty),
contradicting the claim that the turn's question is still recorded. -/
theorem queryTurn_failure_counterex :
    (queryTurn (AssistantState.mk []) "q" (Except.error "boom")).1 =
      "I encountered an error while processing your question: boom" ∧
    (queryTurn (AssistantState.mk []) "q"
        (Except.error "boom")).2.conversation_history = [] ∧
    Message.mk "user" "q" ∉
      (queryTurn (AssistantState.mk []) "q"
        (Except.error "boom")).2.conversation_history := by
  exact ⟨rfl, rfl, by decide⟩

/-- C2 amended: when the reasoning step raises, the turn returns the
single apology/error string and leaves the conversation history exactly
as it was — the question is not recorded. -/
theorem queryTurn_failure (st : AssistantState) (q e : String) :
    queryTurn st q (Except.error e) =
      ("I encountered an error while processing your question: " ++ e, st) := rfl

/-- C5: a malformed (non-JSON-parseable) payload makes the tool action
return a structured error object whose single field carries a message
describing the failure; and for every payload whatsoever the tool
returns a value — no exception ever escapes the tool boundary. -/
theorem tool_parse_error_handled (store : Store) (query_type e : String) :
    execute_mongodb_query store query_type (Except.error e) =
      ToolOutcome.ret (JValue.obj
        [("error", JValue.str ("Invalid JSON format: " ++ e))]) ∧
    ∀ parsed, ∃ j, execute_mongodb_query store query_type parsed = ToolOutcome.ret j := by
  refine ⟨rfl, ?_⟩
  intro parsed
  cases parsed with
  | error e2 => exact ⟨_, rfl⟩
  | ok qd =>
      cases h : fetchResults store query_type qd with
      | ok results =>
          refine ⟨summarize results, ?_⟩
          simp [execute_mongodb_query, h]
      | error e2 =>
          refine ⟨JValue.obj [("error", JValue.str ("Error executing query: " ++ e2))], ?_⟩
          simp [execute_mongodb_query, h]

/-- C6: after appending 12 turns the window handed to the reasoning step
is exactly the 10 most recent turns in original order (entries 2..11,
converted one-for-one in order); and after a reset the history is empty,
so the window is the empty sequence. -/
theorem conversation_window (st : AssistantState) (hist : List Message)
    (h : hist.length = 12) :
    format_chat_history hist = (hist.drop 2).map toChatMessage ∧
    (format_chat_history hist).length = 10 ∧
    (reset_conversation st).conversation_history = [] ∧
    format_chat_history (reset_conversation st).conversation_history = [] := by
  refine ⟨?_, ?_, rfl, rfl⟩
  · unfold format_chat_history
    rw [h]
  · unfold format_chat_history
    rw [List.length_map, List.length_drop, h]

/-- Witness for the conversation-window theorem at a concrete 12-entry
history. -/
theorem conversation_window_witness :
    witnessHistory.length = 12 ∧
    format_chat_history witnessHistory =
      (witnessHistory.drop 2).map toChatMessage :=
  ⟨rfl, (conversation_window (AssistantState.mk []) witnessHistory rfl).1⟩

/-- Helper: running a pipeline with one stage appended is running the
pipeline and then the stage. -/
theorem aggregate_append (docs : Store) (p : List JValue) (s : JValue) :
    aggregate docs (p ++ [s]) =
      (match aggregate docs p with
       | Except.ok d => applyStage d s
       | Except.error e => Except.error e) := by
  induction p generalizing docs with
  | nil =>
      simp only [List.nil_append, aggregate]
      cases h : applyStage docs s with
      | ok d => simp [aggregate, h]
      | error e => simp [aggregate, h]
  | cons st rest ih =>
      simp only [List.cons_append, aggregate]
      cases applyStage docs st with
      | ok d2 => exact ih d2
      | error e => rfl

/-- C1 counterexample: a two-document store, an authored pipeline that
already contains a $limit stage with the larger value 5, and the
requested limit 1: the executor leaves the pipeline as authored and
returns both documents, exceeding the requested limit. -/
def counterexStore : Store := [[("i", JValue.num 0)], [("i", JValue.num 1)]]

theorem aggregation_exceeds_limit_counterex :
    (execute_aggregation counterexStore
        [JValue.obj [("$limit", JValue.num 5)]] 1).2 =
      Except.ok counterexStore ∧
    counterexStore.length = 2 ∧ ¬ (2 ≤ (1 : Int).toNat) := by
  exact ⟨rfl, rfl, by decide⟩

/-- C1 amended: a lookup returns at most `limit` records, and an
aggregation whose authored stage sequence contains no $limit-keyed stage
has `{"$limit": limit}` appended and so returns at most `limit` records;
a pipeline that already contains a $limit stage is executed as authored,
so a larger authored $limit may exceed the requested limit. -/
theorem executor_limit_bounds (store : Store) (q : List (String × JValue))
    (pipeline : List JValue) (lim : Int) :
    (execute_query store q lim).length ≤ lim.toNat ∧
    (anyHasLimit pipeline = Except.ok false →
      ∀ rs, (execute_aggregation store pipeline lim).2 = Except.ok rs →
        rs.length ≤ lim.toNat) := by
  constructor
  · exact List.length_take_le _ _
  · intro hno rs hok
    unfold execute_aggregation at hok
    rw [hno] at hok
    simp only at hok
    rw [aggregate_append] at hok
    cases hagg : aggregate store pipeline with
    | error e => rw [hagg] at hok; exact absurd hok (by simp)
    | ok d =>
        rw [hagg] at hok
        simp only [applyStage, limitStage] at hok
        by_cases hl : 1 ≤ lim
        · rw [if_pos hl] at hok
          cases hok
          exact List.length_take_le _ _
        · rw [if_neg hl] at hok
          exact absurd hok (by simp)

/-- Witness for the executor limit bounds at a concrete store, the empty
filter and an empty authored pipeline with limit 2. -/
theorem executor_limit_bounds_witness :
    anyHasLimit [] = Except.ok false ∧
    (execute_aggregation counterexStore [] 2).2 = Except.ok counterexStore ∧
    counterexStore.length ≤ (2 : Int).toNat :=
  ⟨rfl, rfl, (executor_limit_bounds counterexStore [] [] 2).2 rfl counterexStore rfl⟩

/-- The $match-stage value used in the mutation counterexample. -/
def counterexMatchStage : JValue := JValue.obj [("$match", JValue.obj [])]

/-- C8 counterexample: calling the executor on a one-stage pipeline with
no $limit stage leaves the caller-supplied list holding two stages — the
call mutated its argument, contradicting "no mutation path exists". -/
theorem aggregation_mutation_counterex :
    (execute_aggregation counterexStore [counterexMatchStage] 100).1 =
      [counterexMatchStage, limitStage 100] ∧
    [counterexMatchStage, limitStage 100] ≠ [counterexMatchStage] := by
  refine ⟨rfl, fun h => ?_⟩
  exact absurd (congrArg List.length h) (by decide)

/-- C8 amended: the executor performs no store writes, but it does
mutate the caller-supplied stage list: when no stage of the list carries
the $limit key, the call appends `{"$limit": limit}` to it; the list is
left unchanged exactly when the membership test does not report "absent"
(a $limit-keyed stage is present, or the test itself raises). -/
theorem execute_aggregation_mutation (store : Store)
    (pipeline : List JValue) (lim : Int) :
    ((execute_aggregation store pipeline lim).1 = pipeline ∨
      (execute_aggregation store pipeline lim).1 = pipeline ++ [limitStage lim]) ∧
    (anyHasLimit pipeline = Except.ok false →
      (execute_aggregation store pipeline lim).1 = pipeline ++ [limitStage lim]) ∧
    (anyHasLimit pipeline ≠ Except.ok false →
      (execute_aggregation store pipeline lim).1 = pipeline) := by
  unfold execute_aggregation
  cases h : anyHasLimit pipeline with
  | error e =>
      refine ⟨Or.inl rfl, fun habs => ?_, fun _ => rfl⟩
      exact absurd habs (by simp)
  | ok b =>
      cases b with
      | false => exact ⟨Or.inr rfl, fun _ => rfl, fun hne => absurd rfl hne⟩
      | true =>
          refine ⟨Or.inl rfl, fun habs => ?_, fun _ => rfl⟩
          exact absurd habs (by simp)

/-- Witness for the mutation theorem at the one-stage $match pipeline. -/
theorem execute_aggregation_mutation_witness :
    anyHasLimit [counterexMatchStage] = Except.ok false ∧
    (execute_aggregation counterexStore [counterexMatchStage] 100).1 =
      [counterexMatchStage] ++ [limitStage 100] :=
  ⟨rfl, (execute_aggregation_mutation counterexStore [counterexMatchStage] 100).2.1 rfl⟩

/-- A store of 150 records: more matches for the empty filter than the
executor's 100-row cap. -/
def bigStore : Store := (List.range 150).map (fun i => [("i", JValue.num i)])

/-- C3 counterexample: on a store where 150 records match, the tool
summary reports count 100 (the executor-capped result size) and its
truncation note says "first 10 of 100" — not the true match count 150,
contradicting the claim that the summary carries the true number of
matching records in the store; and on a store where 0 records match
(10 or fewer), the returned object is the distinct no-results marker
carrying neither a results field nor the claimed empty truncation
note. -/
theorem tool_count_counterex :
    (bigStore.filter (fun d => matchesFilter [] d)).length = 150 ∧
    execute_mongodb_query bigStore "find"
        (Except.ok (JValue.obj [("query", JValue.obj [])])) =
      ToolOutcome.ret (JValue.obj
        [("count", JValue.num 100),
         ("results", JValue.arr ((bigStore.take 10).map JValue.obj)),
         ("note", JValue.str "Showing first 10 of 100 results")]) ∧
    (100 : Int) ≠ 150 ∧
    execute_mongodb_query [] "find"
        (Except.ok (JValue.obj [("query", JValue.obj [])])) =
      ToolOutcome.ret (JValue.obj
        [("message", JValue.str "No results found"), ("count", JValue.num 0)]) := by
  refine ⟨rfl, rfl, by decide, rfl⟩

/-- Helper: the bounded summary depends only on the result list and its
length — the empty marker at length 0, else count, the first
min(length, 10) results, and the truncation note exactly when the
length exceeds 10. -/
theorem summarize_by_length (l : Store) :
    summarize l =
      (if l.length = 0 then
        JValue.obj
          [("message", JValue.str "No results found"), ("count", JValue.num 0)]
      else
        JValue.obj
          [("count", JValue.num l.length),
           ("results", JValue.arr ((l.take (min l.length 10)).map JValue.obj)),
           ("note", JValue.str
             (if 10 < l.length then
                "Showing first 10 of " ++ toString l.length ++ " results"
              else ""))]) := by
  unfold summarize
  simp only [List.isEmpty_iff_length_eq_zero]
  by_cases h0 : l.length = 0
  · simp [h0]
  · rw [if_neg h0, if_neg h0]
    by_cases h10 : 10 < l.length
    · rw [if_pos h10, if_pos h10, Nat.min_eq_right (le_of_lt h10)]
    · rw [if_neg h10, if_neg h10]
      push_neg at h10
      rw [Nat.min_eq_left h10, List.take_length]

/-- C3 amended: for every successful tool-action invocation — find or
aggregate — with k the number of records the executor returned, the
summary reports count k; when k exceeds 10 it carries the first 10
results and a truncation note citing k; when 1 ≤ k ≤ 10 it carries all
k results and an empty note; when k = 0 a distinct no-results object
with count 0 and no note field is returned.  For the find action k is
the true match count capped at the executor's 100-row limit, so when
more than 100 records match, the summary and its note cite 100, never
the true count; the aggregate action hands the executor-returned
records to the same summary. -/
theorem tool_success_summary (store : Store) (query_type : String)
    (query_dict : JValue) (results : Store) (conds : List (String × JValue))
    (h : fetchResults store query_type query_dict = Except.ok results) :
    (execute_mongodb_query store query_type (Except.ok query_dict) =
      ToolOutcome.ret
        (if results.length = 0 then
          JValue.obj
            [("message", JValue.str "No results found"), ("count", JValue.num 0)]
        else
          JValue.obj
            [("count", JValue.num results.length),
             ("results", JValue.arr
               ((results.take (min results.length 10)).map JValue.obj)),
             ("note", JValue.str
               (if 10 < results.length then
                  "Showing first 10 of " ++ toString results.length ++ " results"
                else ""))])) ∧
    fetchResults store "find" (JValue.obj [("query", JValue.obj conds)]) =
      Except.ok (execute_query store conds 100) ∧
    (execute_query store conds 100).length =
      min (store.filter (fun d => matchesFilter conds d)).length 100 ∧
    ∀ stages : List JValue,
      fetchResults store "aggregate" (JValue.arr stages) =
        (execute_aggregation store stages 100).2 := by
  refine ⟨?_, rfl, ?_, fun stages => rfl⟩
  · simp only [execute_mongodb_query, h, summarize_by_length]
  · show ((store.filter (fun d => matchesFilter conds d)).take
        (100 : Int).toNat).length = _
    rw [List.length_take, Nat.min_comm]
    rfl

/-- Witness for the summary theorem: a concrete successful find over the
two-document store, whose summary reports count 2, both records and an
empty note. -/
theorem tool_success_summary_witness :
    fetchResults counterexStore "find" (JValue.obj [("query", JValue.obj [])]) =
      Except.ok counterexStore ∧
    execute_mongodb_query counterexStore "find"
        (Except.ok (JValue.obj [("query", JValue.obj [])])) =
      ToolOutcome.ret (JValue.obj
        [("count", JValue.num 2),
         ("results", JValue.arr (counterexStore.map JValue.obj)),
         ("note", JValue.str "")]) :=
  ⟨rfl, Eq.trans ((tool_success_summary counterexStore "find"
      (JValue.obj [("query", JValue.obj [])]) counterexStore [] rfl).1) rfl⟩

/-- C10: a well-formed object payload lacking the "query" field makes
the find action execute the empty filter, which matches every record in
the store up to the 100-record cap; an object payload lacking the
"pipeline" field makes the aggregate action execute the empty pipeline,
to which only the default $limit 100 stage is added, likewise returning
the first 100 records. -/
theorem default_payload_fields (store : Store) (fields : Document)
    (hq : jsonGet fields "query" = none)
    (hp : jsonGet fields "pipeline" = none) :
    fetchResults store "find" (JValue.obj fields) =
      Except.ok (execute_query store [] 100) ∧
    execute_query store [] 100 = store.take 100 ∧
    fetchResults store "aggregate" (JValue.obj fields) =
      (execute_aggregation store [] 100).2 ∧
    (execute_aggregation store [] 100).2 = Except.ok (store.take 100) := by
  refine ⟨?_, ?_, ?_, rfl⟩
  · have hb : ("find" == "aggregate") = false := rfl
    simp [fetchResults, hb, hq]
  · simp [execute_query, matchesFilter]
  · have hb : ("aggregate" == "aggregate") = true := rfl
    simp [fetchResults, hb, hp]

/-- Witness for the default-field theorem at a concrete payload without
"query" or "pipeline" fields. -/
theorem default_payload_fields_witness :
    jsonGet [("foo", JValue.num 1)] "query" = none ∧
    jsonGet [("foo", JValue.num 1)] "pipeline" = none ∧
    fetchResults counterexStore "find" (JValue.obj [("foo", JValue.num 1)]) =
      Except.ok (execute_query counterexStore [] 100) :=
  ⟨rfl, rfl, (default_payload_fields counterexStore [("foo", JValue.num 1)] rfl rfl).1⟩

/-- Helper: the loop never executes more tool invocations than its
fuel. -/
theorem runReasoningLoop_count_le (tool : String → String → String)
    (agentStep : List String → AgentDecision) (fuel : Nat) (obs : List String) :
    (runReasoningLoop tool agentStep fuel obs).2 ≤ fuel := by
  induction fuel generalizing obs with
  | zero => simp [runReasoningLoop]
  | succ n ih =>
      cases h : agentStep obs with
      | finalAnswer a => simp [runReasoningLoop, h]
      | toolCall ac p =>
          simp only [runReasoningLoop, h]
          exact Nat.succ_le_succ (ih _)

/-- Helper: a loop that used its whole fuel on tool invocations ended on
the fallback answer. -/
theorem runReasoningLoop_exhausted (tool : String → String → String)
    (agentStep : List String → AgentDecision) (fuel : Nat) (obs : List String)
    (h : (runReasoningLoop tool agentStep fuel obs).2 = fuel) :
    (runReasoningLoop tool agentStep fuel obs).1 = iterationLimitMessage := by
  induction fuel generalizing obs with
  | zero => rfl
  | succ n ih =>
      cases hd : agentStep obs with
      | finalAnswer a =>
          rw [show runReasoningLoop tool agentStep (Nat.succ n) obs = (a, 0) by
            simp [runReasoningLoop, hd]] at h ⊢
          exact absurd h (by simp)
      | toolCall ac p =>
          simp only [runReasoningLoop, hd] at h ⊢
          exact ih _ (Nat.succ_injective h)

/-- C7: for a single user question the reasoning loop executes at most
Config.MAX_ITERATIONS = 3 tool invocations, and when the whole budget is
spent on tool invocations it still returns an answer — the fixed
non-empty fallback string — rather than raising. -/
theorem reasoning_loop_bounded (tool : String → String → String)
    (agentStep : List String → AgentDecision) (obs : List String) :
    (runReasoningLoop tool agentStep Config.MAX_ITERATIONS obs).2 ≤
      Config.MAX_ITERATIONS ∧
    ((runReasoningLoop tool agentStep Config.MAX_ITERATIONS obs).2 =
        Config.MAX_ITERATIONS →
      (runReasoningLoop tool agentStep Config.MAX_ITERATIONS obs).1 =
        iterationLimitMessage) ∧
    iterationLimitMessage ≠ "" :=
  ⟨runReasoningLoop_count_le tool agentStep Config.MAX_ITERATIONS obs,
   runReasoningLoop_exhausted tool agentStep Config.MAX_ITERATIONS obs,
   by decide⟩

/-- Witness for the loop bound: an agent step that always invokes a tool
spends exactly the 3-step budget and ends on the fallback answer. -/
theorem reasoning_loop_bounded_witness :
    (runReasoningLoop (fun _ _ => "r") (fun _ => AgentDecision.toolCall "t" "p")
        Config.MAX_ITERATIONS []).2 = Config.MAX_ITERATIONS ∧
    (runReasoningLoop (fun _ _ => "r") (fun _ => AgentDecision.toolCall "t" "p")
        Config.MAX_ITERATIONS []).1 = iterationLimitMessage :=
  ⟨rfl, (reasoning_loop_bounded (fun _ _ => "r")
      (fun _ => AgentDecision.toolCall "t" "p") []).2.1 rfl⟩

/-- C9: the deterministic currency-scaling rule on the spec's reference
magnitudes — billions, millions, thousands and the sub-10,000 full form
with thousands separators — and the dollar-sign prefix on every
output.  The formatter is a pure presentation function; it consumes a
magnitude and produces a string, never altering stored values. -/
theorem currency_scaling :
    formatCurrency 89587515131.17 = "$89.59B" ∧
    formatCurrency 125500000 = "$125.50M" ∧
    formatCurrency 15200 = "$15.20K" ∧
    formatCurrency 5432.5 = "$5,432.50" ∧
    ∀ v : ℚ, ∃ rest : String, formatCurrency v = "$" ++ rest := by
  refine ⟨?_, ?_, ?_, ?_, ?_⟩
  · rw [formatCurrency, if_pos (by norm_num : (1000000000 : ℚ) ≤ 89587515131.17),
      show roundHalfUp (89587515131.17 / 1000000000 * 100) = 8959 by
        unfold roundHalfUp; norm_num]
    decide
  · rw [formatCurrency, if_neg (by norm_num : ¬ (1000000000 : ℚ) ≤ 125500000),
      if_pos (by norm_num : (1000000 : ℚ) ≤ 125500000),
      show roundHalfUp (125500000 / 1000000 * 100) = 12550 by
        unfold roundHalfUp; norm_num]
    decide
  · rw [formatCurrency, if_neg (by norm_num : ¬ (1000000000 : ℚ) ≤ 15200),
      if_neg (by norm_num : ¬ (1000000 : ℚ) ≤ 15200),
      if_pos (by norm_num : (10000 : ℚ) ≤ 15200),
      show roundHalfUp (15200 / 1000 * 100) = 1520 by
        unfold roundHalfUp; norm_num]
    decide
  · rw [formatCurrency, if_neg (by norm_num : ¬ (1000000000 : ℚ) ≤ 5432.5),
      if_neg (by norm_num : ¬ (1000000 : ℚ) ≤ 5432.5),
      if_neg (by norm_num : ¬ (10000 : ℚ) ≤ 5432.5)]
    rw [show roundHalfUp (5432.5 * 100) = 543250 by unfold roundHalfUp; norm_num]
    decide
  · intro v
    unfold formatCurrency
    split_ifs <;> exact ⟨_, rfl⟩
